import Mathlib

/-!
Shallow embedding of the csv2avro batch pipeline.

The embedding follows the two source files that carry the logic:

* `src/main.py` — the sanitizer `remove_tags`, the unprocessed-row selector
  `download_table_to_df`, and the `__main__` batch loop;
* `src/utils/table_update.py` — `TableUpdater.create_or_update_table` and
  `TableUpdater.bulk_insert_data`.

Database tables are modelled as lists of rows; a row is an association list
from column name to a scalar value.  SQL `NULL` is an explicit `Val.null`,
and SQL equality (`t1.id = t2.id`) is three-valued: a comparison involving
`NULL` is never true.  External effects (logging, connections) are modelled
by explicit parameters and result channels; the HTML parser (BeautifulSoup,
an external library) is an abstract parameter `parse : String → Option String`
where `none` stands for a raised parse exception.
-/

/-- A scalar database/DataFrame value. `null` is SQL NULL / Python `None`. -/
inductive Val where
  | null : Val
  | str : String → Val
  | int : Int → Val
deriving DecidableEq, Repr

/-- A row: ordered mapping column name → value (Python dict / DataFrame row). -/
abbrev Row := List (String × Val)

/-- First-match association-list lookup (Python `dict` access semantics). -/
def assocGet {α : Type} (d : List (String × α)) (k : String) : Option α :=
  match d with
  | [] => none
  | (k2, v) :: rest => if k2 = k then some v else assocGet rest k

/-- Value of column `c` in row `r`; an absent column reads as SQL NULL. -/
def valAt (r : Row) (c : String) : Val := (assocGet r c).getD Val.null

/-- The identity key of a row: its `id` column (`main.py` query `t1.id`). -/
def idv (r : Row) : Val := valAt r "id"

/-- SQL equality: comparisons with NULL are never true. -/
def sqlEq : Val → Val → Bool
  | Val.null, _ => false
  | _, Val.null => false
  | a, b => a == b

/-- `EXISTS (SELECT 1 FROM processed t2 WHERE t1.id = t2.id)` for row `r`. -/
def matched (r : Row) (processed : List Row) : Bool :=
  processed.any (fun q => sqlEq (idv r) (idv q))

/-- Semantics of the selector query in `download_table_to_df`
(`main.py` lines 29-36): rows of `raw` with no id-match in `processed`,
truncated by `LIMIT`. -/
def selectQuery (raw processed : List Row) (limit : Nat) : List Row :=
  (raw.filter (fun r => ! matched r processed)).take limit

/-- An exception raised while executing the query (connectivity, syntax, ...). -/
inductive QueryError where
  | err : String → QueryError
deriving DecidableEq, Repr

/-- `download_table_to_df` (`main.py` lines 27-43): on success returns the
query result; on any exception it logs and returns an empty DataFrame.
`conn` models whether connecting/executing raises. -/
def download_table_to_df (conn : Except QueryError Unit) (raw processed : List Row)
    (limit : Nat) : List Row :=
  match conn with
  | Except.ok _ => selectQuery raw processed limit
  | Except.error _ => []

/-- `remove_tags` (`main.py` lines 13-25).  `parse` abstracts the
BeautifulSoup pipeline (parse, decompose style/script, join stripped
strings); `parse s = none` models an exception anywhere inside the `try`.
A `None` input returns `""`; a non-string input (e.g. a numeric cell) makes
BeautifulSoup raise, so the original value is returned by the `except` arm,
as is the original string on a parse failure. -/
def remove_tags (parse : String → Option String) : Val → Val
  | Val.null => Val.str ""
  | Val.str s =>
    match parse s with
    | some t => Val.str t
    | none => Val.str s
  | v => v

/-- Overwrite the value stored at key `col` (pandas `df[column] = series`,
restricted to one row; keys are untouched). -/
def setCol (r : Row) (col : String) (v : Val) : Row :=
  match r with
  | [] => []
  | (k2, w) :: rest => (k2, if k2 = col then v else w) :: setCol rest col v

/-- The successful branch of `df[column] = df[column].apply(remove_tags)`:
every row gets its `col` value replaced by `f` of it. -/
def applyColumnOk (f : Val → Val) (col : String) (df : List Row) : List Row :=
  df.map (fun r => setCol r col (f (valAt r col)))

/-- `df[column].apply(remove_tags)` (`main.py` line 65): raises `KeyError`
when the column is absent from the DataFrame, otherwise maps `f` over the
column. -/
def applyColumn (f : Val → Val) (col : String) (df : List Row) :
    Except String (List Row) :=
  if df.all (fun r => (assocGet r col).isSome) then
    Except.ok (applyColumnOk f col df)
  else
    Except.error col

/-- `columns_to_clean` (`main.py` line 62). -/
def columns_to_clean : List String :=
  ["abstract_de", "abstract_it", "abstract_fr", "content"]

/-- One pass of the per-column `try/except` (`main.py` lines 63-69): on
failure the assignment does not happen (the DataFrame keeps its previous
values) and the column name is appended to `error_columns`. -/
def sanitizeStep (parse : String → Option String) (acc : List Row × List String)
    (col : String) : List Row × List String :=
  match applyColumn (remove_tags parse) col acc.1 with
  | Except.ok df2 => (df2, acc.2)
  | Except.error c => (acc.1, acc.2 ++ [c])

/-- The sanitize phase of one loop iteration (`main.py` lines 62-69):
returns the transformed DataFrame and the column names that failed. -/
def sanitizeColumns (parse : String → Option String) (df : List Row) :
    List Row × List String :=
  columns_to_clean.foldl (sanitizeStep parse) (df, [])

/-- How the `while True` loop in `__main__` ended. -/
inductive Outcome where
  | done : Outcome
  | fuelOut : Outcome
deriving DecidableEq, Repr

/-- Observable final state of the `__main__` batch loop: the processed
table contents, `processed_count`, `error_columns`, and how it stopped. -/
structure LoopResult where
  processed : List Row
  processed_count : Nat
  error_columns : List String
  outcome : Outcome
deriving DecidableEq, Repr

/-- An engine whose queries always succeed. -/
def okFetch : Nat → Except QueryError Unit := fun _ => Except.ok ()

/-- The `__main__` batch loop (`main.py` lines 51-84).  `fetch iter` is the
connection state seen by the selector on iteration `iter` (the selector
swallows its own exceptions, so the loop body never sees them).  Writes
(`df.to_sql(..., if_exists="append")`) append to the processed table.
`fuel` bounds the unbounded `while True` for the embedding; `Outcome.done`
is the `break` on an empty batch ("No new data to process."). -/
def runLoop (parse : String → Option String) (fetch : Nat → Except QueryError Unit) :
    Nat → Nat → List Row → List Row → Nat → List String → LoopResult
  | 0, _, _, processed, count, errs => ⟨processed, count, errs, Outcome.fuelOut⟩
  | fuel + 1, iter, raw, processed, count, errs =>
    let df := download_table_to_df (fetch iter) raw processed 100
    if df.isEmpty then
      ⟨processed, count + df.length, errs, Outcome.done⟩
    else
      let s := sanitizeColumns parse df
      runLoop parse fetch fuel (iter + 1) raw (processed ++ s.1) (count + df.length)
        (errs ++ s.2)

/-- Number of raw rows not yet id-matched in the processed table; the
termination measure of the batch loop. -/
def unmatchedCount (raw processed : List Row) : Nat :=
  (raw.filter (fun r => ! matched r processed)).length

/-- One column of a YAML table schema (`table_update.py` lines 74-82):
name, type tag (a key of `type_mapping`), `primary_key`, optional
`foreign_key`, `timezone` flag. -/
structure ColumnSpec where
  name : String
  ctype : String
  primary_key : Bool
  foreign_key : Option String
  timezone : Bool
deriving DecidableEq, Repr

/-- One entry of the YAML schema list (`table_update.py` lines 70-74). -/
structure TableSchema where
  name : String
  columns : List ColumnSpec
deriving DecidableEq, Repr

/-- State touched by `TableUpdater.create_or_update_table`: the in-memory
registrations `self.tables` and the live database schema (table name →
its current columns). -/
structure RecState where
  tables : List (String × List ColumnSpec)
  db : List (String × List ColumnSpec)
deriving DecidableEq, Repr

/-- The keys of `TableUpdater.type_mapping` (`table_update.py` lines 35-52). -/
def type_mapping : List String :=
  ["BigInteger", "Boolean", "CHAR", "Date", "DateTime", "Float", "Integer",
   "LargeBinary", "Numeric", "SmallInteger", "String", "Text", "Time",
   "TIMESTAMP", "VARBINARY", "VARCHAR"]

/-- Python `dict` assignment `d[k] = v`: replace if present, else append. -/
def dictSet {α : Type} (d : List (String × α)) (k : String) (v : α) :
    List (String × α) :=
  if (assocGet d k).isSome then
    d.map (fun kv => if kv.1 = k then (k, v) else kv)
  else
    d ++ [(k, v)]

/-- `TableUpdater.create_or_update_table` (`table_update.py` lines 65-114),
modelled faithfully to the file as written.  `table_update.py` imports
neither `inspect` nor `DDL` nor `exc` from sqlalchemy, so for the first
schema in the list the function builds the columns (raising `KeyError` on a
type tag outside `type_mapping`, line 76), registers the table in
`self.tables` (line 85), runs the create-if-absent transaction (lines
86-94, which commits when the table does not yet exist), and then raises an
uncaught `NameError` at `insp = inspect(conn)` (line 98) before any
missing-column `ALTER TABLE` can run; no later schema is ever processed.
Result: the state after the side effects that did happen, plus the
uncaught exception (`none` = normal return, only possible for an empty
schema list). -/
def create_or_update_table (schemas : List TableSchema) (st : RecState) :
    RecState × Option String :=
  match schemas with
  | [] => (st, none)
  | schema :: _ =>
    if schema.columns.all (fun c => type_mapping.contains c.ctype) then
      let st1 : RecState :=
        { st with tables := dictSet st.tables schema.name schema.columns }
      let st2 : RecState :=
        if (assocGet st1.db schema.name).isSome then st1
        else { st1 with db := st1.db ++ [(schema.name, schema.columns)] }
      (st2, some "NameError: name inspect is not defined")
    else
      (st, some "KeyError in type_mapping")

/-- `table.columns.keys()` for a registered table. -/
def colNames (cspecs : List ColumnSpec) : List String :=
  cspecs.map (fun c => c.name)

/-- The columns of the table's primary-key / uniqueness constraint. -/
def pkNames (cspecs : List ColumnSpec) : List String :=
  (cspecs.filter (fun c => c.primary_key)).map (fun c => c.name)

/-- `complete_item` (`table_update.py` line 136): one mapping entry per
table column, `item.get(col, None)` filling absentees with NULL.  Keys of
`item` outside the table columns do not appear. -/
def complete_item (cols : List String) (item : Row) : Row :=
  cols.map (fun c => (c, (assocGet item c).getD Val.null))

/-- Whether `q` violates the uniqueness constraint `pk` against `r`
(Postgres index semantics: NULLs never conflict). -/
def rowConflicts (pk : List String) (q r : Row) : Bool :=
  pk.all (fun c => sqlEq (valAt q c) (valAt r c))

/-- `insert(table).values(**complete_item).on_conflict_do_nothing()`
(`table_update.py` line 138) executed against table contents `tbl`: skip
when a row conflicts on the table's uniqueness constraint, else append.
With no declared constraint there is nothing to conflict with. -/
def insert_on_conflict (pk : List String) (tbl : List Row) (r : Row) : List Row :=
  if !pk.isEmpty && tbl.any (fun q => rowConflicts pk q r) then tbl else tbl ++ [r]

/-- `TableUpdater.bulk_insert_data` (`table_update.py` lines 116-139):
raises `ValueError` before touching the database when `table_name` was
never registered in `self.tables`; otherwise inserts each item in order
with the on-conflict-do-nothing policy.  Returns the target table's new
contents and the raised exception, if any. -/
def bulk_insert_data (tables : List (String × List ColumnSpec)) (tbl : List Row)
    (table_name : String) (data : List Row) : List Row × Option String :=
  match assocGet tables table_name with
  | none => (tbl, some "ValueError: table not initialized, call create_or_update_table first")
  | some cspecs =>
    (data.foldl
      (fun acc item =>
        insert_on_conflict (pkNames cspecs) acc (complete_item (colNames cspecs) item))
      tbl, none)

/-- Occurrences of row `r` in table `tbl`. -/
def countEq (tbl : List Row) (r : Row) : Nat :=
  (tbl.filter (fun q => decide (q = r))).length

/-! ### Helper lemmas -/

theorem sqlEq_self {v : Val} (h : v ≠ Val.null) : sqlEq v v = true := by
  cases v with
  | null => exact absurd rfl h
  | str s => simp [sqlEq]
  | int n => simp [sqlEq]

theorem assocGet_setCol_ne (r : Row) (col k : String) (v : Val) (h : k ≠ col) :
    assocGet (setCol r col v) k = assocGet r k := by
  induction r with
  | nil => rfl
  | cons kv rest ih =>
    obtain ⟨k2, w⟩ := kv
    by_cases he : k2 = k
    · have hne : ¬ (k2 = col) := fun hc => h (he.symm.trans hc)
      simp [setCol, assocGet, he, hne, h]
    · simp [setCol, assocGet, he, ih]

theorem isSome_assocGet_setCol (r : Row) (col k : String) (v : Val) :
    (assocGet (setCol r col v) k).isSome = (assocGet r k).isSome := by
  induction r with
  | nil => rfl
  | cons kv rest ih =>
    obtain ⟨k2, w⟩ := kv
    by_cases he : k2 = k
    · simp [setCol, assocGet, he]
    · simp [setCol, assocGet, he, ih]

theorem valAt_setCol_ne (r : Row) (col k : String) (v : Val) (h : k ≠ col) :
    valAt (setCol r col v) k = valAt r k := by
  simp [valAt, assocGet_setCol_ne r col k v h]

theorem idv_setCol (r : Row) (col : String) (v : Val) (h : col ≠ "id") :
    idv (setCol r col v) = idv r := by
  simp [idv, valAt_setCol_ne r col "id" v (fun hc => h hc.symm)]

theorem map_idv_applyColumnOk (f : Val → Val) (col : String) (df : List Row)
    (h : col ≠ "id") :
    (applyColumnOk f col df).map idv = df.map idv := by
  induction df with
  | nil => rfl
  | cons r rest ih =>
    simp only [applyColumnOk, List.map_cons] at ih ⊢
    rw [idv_setCol _ _ _ h]
    exact congrArg (idv r :: ·) ih

theorem map_assocGet_applyColumnOk (f : Val → Val) (col k : String) (df : List Row)
    (h : k ≠ col) :
    (applyColumnOk f col df).map (fun r => assocGet r k) =
      df.map (fun r => assocGet r k) := by
  induction df with
  | nil => rfl
  | cons r rest ih =>
    simp only [applyColumnOk, List.map_cons] at ih ⊢
    rw [assocGet_setCol_ne _ _ _ _ h]
    exact congrArg (assocGet r k :: ·) ih

theorem all_isSome_applyColumnOk (f : Val → Val) (col k : String) (df : List Row) :
    (applyColumnOk f col df).all (fun r => (assocGet r k).isSome) =
      df.all (fun r => (assocGet r k).isSome) := by
  induction df with
  | nil => rfl
  | cons r rest ih =>
    simp only [applyColumnOk, List.map_cons, List.all_cons] at ih ⊢
    rw [isSome_assocGet_setCol, ih]

theorem sanitizeStep_map_idv (parse : String → Option String)
    (acc : List Row × List String) (col : String) (hc : col ≠ "id") :
    ((sanitizeStep parse acc col).1).map idv = (acc.1).map idv := by
  unfold sanitizeStep applyColumn
  by_cases hall : ((acc.1).all (fun r => (assocGet r col).isSome)) = true
  · simp only [hall, if_pos]
    exact map_idv_applyColumnOk _ _ _ hc
  · simp only [hall]
    rfl

theorem map_idv_sanitizeFold (parse : String → Option String) (cols : List String)
    (h : ∀ c ∈ cols, c ≠ "id") (df : List Row) (errs : List String) :
    ((cols.foldl (sanitizeStep parse) (df, errs)).1).map idv = df.map idv := by
  induction cols generalizing df errs with
  | nil => rfl
  | cons c rest ih =>
    have hc : c ≠ "id" := h c (List.mem_cons_self c rest)
    have hrest : ∀ x ∈ rest, x ≠ "id" := fun x hx => h x (List.mem_cons_of_mem c hx)
    simp only [List.foldl_cons]
    have step := sanitizeStep_map_idv parse (df, errs) c hc
    have tail := ih hrest (sanitizeStep parse (df, errs) c).1
      (sanitizeStep parse (df, errs) c).2
    exact tail.trans step

theorem map_idv_sanitizeColumns (parse : String → Option String) (df : List Row) :
    ((sanitizeColumns parse df).1).map idv = df.map idv := by
  have h : ∀ c ∈ columns_to_clean, c ≠ "id" := by decide
  exact map_idv_sanitizeFold parse columns_to_clean h df []

theorem filter_length_mono {α : Type} (l : List α) (p q : α → Bool)
    (h : ∀ a ∈ l, q a = true → p a = true) :
    (l.filter q).length ≤ (l.filter p).length := by
  induction l with
  | nil => exact Nat.le_refl 0
  | cons x xs ih =>
    have ihh := ih (fun a ha => h a (List.mem_cons_of_mem x ha))
    by_cases hq : q x = true
    · have hp := h x (List.mem_cons_self x xs) hq
      simp only [List.filter_cons, hq, hp, if_pos, List.length_cons]
      exact Nat.succ_le_succ ihh
    · by_cases hp : p x = true <;> simp [List.filter_cons, hq, hp] <;> omega

theorem filter_length_lt {α : Type} (l : List α) (p q : α → Bool)
    (hmono : ∀ a ∈ l, q a = true → p a = true) (b : α) (hb : b ∈ l)
    (hpb : p b = true) (hqb : q b = false) :
    (l.filter q).length < (l.filter p).length := by
  induction l with
  | nil => cases hb
  | cons x xs ih =>
    have hmxs : ∀ a ∈ xs, q a = true → p a = true :=
      fun a ha => hmono a (List.mem_cons_of_mem x ha)
    rcases List.mem_cons.mp hb with hbx | hbxs
    · subst hbx
      have hmono2 := filter_length_mono xs p q hmxs
      simp [List.filter_cons, hpb, hqb]
      omega
    · have ihh := ih hmxs hbxs
      by_cases hq : q x = true
      · have hp := hmono x (List.mem_cons_self x xs) hq
        simp [List.filter_cons, hq, hp]
        omega
      · by_cases hp : p x = true <;> simp [List.filter_cons, hq, hp] <;> omega

theorem matched_append (r : Row) (p s : List Row) :
    matched r (p ++ s) = (matched r p || matched r s) := by
  simp [matched, List.any_append]

theorem mem_selectQuery {raw p : List Row} {n : Nat} {b : Row}
    (h : b ∈ selectQuery raw p n) : b ∈ raw ∧ matched b p = false := by
  have hf : b ∈ raw.filter (fun r => ! matched r p) := List.take_subset _ _ h
  have hm := List.mem_filter.mp hf
  exact ⟨hm.1, by simpa using hm.2⟩

theorem selectQuery_length_le (raw p : List Row) (n : Nat) :
    (selectQuery raw p n).length ≤ n := by
  simp only [selectQuery, List.length_take]
  exact Nat.min_le_left _ _

theorem matched_sanitize_of_mem (parse : String → Option String) {df : List Row}
    {b : Row} (hb : b ∈ df) (hid : idv b ≠ Val.null) :
    matched b ((sanitizeColumns parse df).1) = true := by
  have hmap := map_idv_sanitizeColumns parse df
  have hmem : idv b ∈ ((sanitizeColumns parse df).1).map idv := by
    rw [hmap]
    exact List.mem_map_of_mem idv hb
  rcases List.mem_map.mp hmem with ⟨s, hs, hsv⟩
  unfold matched
  rw [List.any_eq_true]
  exact ⟨s, hs, by rw [hsv]; exact sqlEq_self hid⟩

theorem unmatched_decrease (parse : String → Option String) (raw p : List Row)
    (b : Row) (rest : List Row) (hsel : selectQuery raw p 100 = b :: rest)
    (hids : ∀ r ∈ raw, idv r ≠ Val.null) :
    unmatchedCount raw (p ++ (sanitizeColumns parse (b :: rest)).1) <
      unmatchedCount raw p := by
  have hbmem : b ∈ selectQuery raw p 100 := by
    rw [hsel]; exact List.mem_cons_self b rest
  obtain ⟨hbr, hbp⟩ := mem_selectQuery hbmem
  unfold unmatchedCount
  apply filter_length_lt raw (fun r => ! matched r p)
    (fun r => ! matched r (p ++ (sanitizeColumns parse (b :: rest)).1)) ?_ b hbr
    (by simp [hbp]) ?_
  · intro a _ hq
    have hq2 : (! matched a (p ++ (sanitizeColumns parse (b :: rest)).1)) = true := hq
    rw [matched_append] at hq2
    show (! matched a p) = true
    simp only [Bool.not_eq_eq_eq_not, Bool.not_true, Bool.or_eq_false_iff] at hq2
    simp [hq2.1]
  · have hms : matched b ((sanitizeColumns parse (b :: rest)).1) = true :=
      matched_sanitize_of_mem parse (List.mem_cons_self b rest) (hids b hbr)
    show (! matched b (p ++ (sanitizeColumns parse (b :: rest)).1)) = false
    rw [matched_append]
    simp [hms]

theorem runLoop_succ (parse : String → Option String)
    (fetch : Nat → Except QueryError Unit) (fuel iter : Nat) (raw processed : List Row)
    (count : Nat) (errs : List String) :
    runLoop parse fetch (fuel + 1) iter raw processed count errs =
      (let df := download_table_to_df (fetch iter) raw processed 100
       if df.isEmpty then
         ⟨processed, count + df.length, errs, Outcome.done⟩
       else
         let s := sanitizeColumns parse df
         runLoop parse fetch fuel (iter + 1) raw (processed ++ s.1) (count + df.length)
           (errs ++ s.2)) := rfl

theorem runLoop_empty_step (parse : String → Option String)
    (fetch : Nat → Except QueryError Unit) (fuel iter : Nat) (raw p : List Row)
    (c : Nat) (e : List String) (h0 : fetch iter = Except.ok ())
    (h : selectQuery raw p 100 = []) :
    runLoop parse fetch (fuel + 1) iter raw p c e = ⟨p, c, e, Outcome.done⟩ := by
  rw [runLoop_succ]
  simp [download_table_to_df, h0, h]

theorem runLoop_terminates (parse : String → Option String) (raw : List Row)
    (hids : ∀ r ∈ raw, idv r ≠ Val.null) :
    ∀ (fuel : Nat) (p : List Row) (c : Nat) (e : List String) (iter : Nat),
      unmatchedCount raw p < fuel →
      (runLoop parse okFetch fuel iter raw p c e).outcome = Outcome.done ∧
      selectQuery raw (runLoop parse okFetch fuel iter raw p c e).processed 100 = [] := by
  intro fuel
  induction fuel with
  | zero => intro p c e iter h; exact absurd h (Nat.not_lt_zero _)
  | succ fuel ih =>
    intro p c e iter h
    cases hsel : selectQuery raw p 100 with
    | nil =>
      rw [runLoop_empty_step parse okFetch fuel iter raw p c e rfl hsel]
      exact ⟨rfl, hsel⟩
    | cons b rest =>
      rw [runLoop_succ]
      simp only [download_table_to_df, okFetch, hsel, List.isEmpty_cons, if_neg,
        Bool.false_eq_true]
      apply ih
      have hdec := unmatched_decrease parse raw p b rest hsel hids
      omega

theorem runLoop_errs_extend (parse : String → Option String)
    (fetch : Nat → Except QueryError Unit) (raw : List Row) :
    ∀ (fuel iter : Nat) (p : List Row) (c : Nat) (e : List String),
      ∃ t, (runLoop parse fetch fuel iter raw p c e).error_columns = e ++ t := by
  intro fuel
  induction fuel with
  | zero => intro iter p c e; exact ⟨[], by simp [runLoop]⟩
  | succ fuel ih =>
    intro iter p c e
    rw [runLoop_succ]
    by_cases hdf : (download_table_to_df (fetch iter) raw p 100).isEmpty = true
    · exact ⟨[], by simp [hdf]⟩
    · obtain ⟨t, ht⟩ := ih (iter + 1)
        (p ++ (sanitizeColumns parse (download_table_to_df (fetch iter) raw p 100)).1)
        (c + (download_table_to_df (fetch iter) raw p 100).length)
        (e ++ (sanitizeColumns parse (download_table_to_df (fetch iter) raw p 100)).2)
      refine ⟨(sanitizeColumns parse (download_table_to_df (fetch iter) raw p 100)).2 ++ t, ?_⟩
      simp only [hdf, Bool.false_eq_true, if_false]
      rw [ht, List.append_assoc]

theorem assocGet_complete_item (cols : List String) (item : Row) (k : String) :
    assocGet (complete_item cols item) k =
      if k ∈ cols then some ((assocGet item k).getD Val.null) else none := by
  induction cols with
  | nil => simp [complete_item, assocGet]
  | cons c rest ih =>
    by_cases hc : c = k
    · subst hc
      simp [complete_item, assocGet, List.mem_cons]
    · have hck : ¬ (k = c) := fun hh => hc hh.symm
      simp [complete_item, assocGet, hc, hck, List.mem_cons]
      simpa [complete_item] using ih

theorem map_fst_complete_item (cols : List String) (item : Row) :
    (complete_item cols item).map Prod.fst = cols := by
  induction cols with
  | nil => rfl
  | cons c rest ih =>
    simp only [complete_item, List.map_cons] at ih ⊢
    exact congrArg (c :: ·) ih

theorem rowConflicts_self (pk : List String) (r : Row)
    (h : ∀ c ∈ pk, valAt r c ≠ Val.null) : rowConflicts pk r r = true := by
  unfold rowConflicts
  rw [List.all_eq_true]
  intro c hc
  exact sqlEq_self (h c hc)

theorem countEq_append (a b : List Row) (r : Row) :
    countEq (a ++ b) r = countEq a r + countEq b r := by
  simp [countEq, List.filter_append]

theorem countEq_zero_of_not_mem {tbl : List Row} {r : Row} (h : r ∉ tbl) :
    countEq tbl r = 0 := by
  unfold countEq
  have hnil : tbl.filter (fun q => decide (q = r)) = [] := by
    rw [List.filter_eq_nil_iff]
    intro a ha
    simp only [decide_eq_true_eq]
    exact fun har => h (har ▸ ha)
  rw [hnil]
  rfl

/-! ### Claim theorems -/

/-- C1: the Selector (`download_table_to_df` on a working connection)
returns only rows of the raw table whose id has no match in the processed
table, returns at most `limit` rows, and — provided raw rows carry non-null
ids — after a batch is sanitized and appended to the processed table, a
subsequent call returns no row of that batch. -/
theorem C1_select_batch (raw processed : List Row) (limit limit2 : Nat)
    (parse : String → Option String)
    (hids : ∀ r ∈ raw, idv r ≠ Val.null) :
    (∀ r ∈ download_table_to_df (Except.ok ()) raw processed limit,
      r ∈ raw ∧ matched r processed = false) ∧
    (download_table_to_df (Except.ok ()) raw processed limit).length ≤ limit ∧
    (∀ b ∈ download_table_to_df (Except.ok ()) raw processed limit,
      b ∉ download_table_to_df (Except.ok ()) raw
        (processed ++
          (sanitizeColumns parse
            (download_table_to_df (Except.ok ()) raw processed limit)).1)
        limit2) := by
  refine ⟨?_, ?_, ?_⟩
  · intro r hr
    exact mem_selectQuery hr
  · exact selectQuery_length_le raw processed limit
  · intro b hb hmem
    obtain ⟨hbr, _⟩ := mem_selectQuery hb
    obtain ⟨_, hbp2⟩ := mem_selectQuery hmem
    rw [matched_append] at hbp2
    have hms := matched_sanitize_of_mem parse hb (hids b hbr)
    simp [hms] at hbp2

/-- Witness for C1: a one-row raw table against an empty processed table. -/
theorem C1_select_batch_witness :
    (∀ r ∈ [[("id", Val.int 1)]], idv r ≠ Val.null) ∧
    ((∀ r ∈ download_table_to_df (Except.ok ()) [[("id", Val.int 1)]] [] 100,
      r ∈ [[("id", Val.int 1)]] ∧ matched r [] = false) ∧
    (download_table_to_df (Except.ok ()) [[("id", Val.int 1)]] [] 100).length ≤ 100 ∧
    (∀ b ∈ download_table_to_df (Except.ok ()) [[("id", Val.int 1)]] [] 100,
      b ∉ download_table_to_df (Except.ok ()) [[("id", Val.int 1)]]
        ([] ++
          (sanitizeColumns (fun _ => none)
            (download_table_to_df (Except.ok ()) [[("id", Val.int 1)]] [] 100)).1)
        100)) :=
  ⟨by decide,
    C1_select_batch [[("id", Val.int 1)]] [] 100 100 (fun _ => none) (by decide)⟩

/-- C2: with raw rows carrying non-null ids, running the batch loop to
completion (fuel `raw.length + 1` suffices) ends in the completion state;
the resulting processed table makes the selector query empty, so a second
run immediately takes the empty-batch break, writing nothing and counting
zero rows. -/
theorem C2_rerun_idempotent (parse : String → Option String) (raw p0 : List Row)
    (fuel2 : Nat) (hids : ∀ r ∈ raw, idv r ≠ Val.null) :
    (runLoop parse okFetch (raw.length + 1) 0 raw p0 0 []).outcome = Outcome.done ∧
    selectQuery raw (runLoop parse okFetch (raw.length + 1) 0 raw p0 0 []).processed
      100 = [] ∧
    runLoop parse okFetch (fuel2 + 1) 0 raw
        (runLoop parse okFetch (raw.length + 1) 0 raw p0 0 []).processed 0 [] =
      ⟨(runLoop parse okFetch (raw.length + 1) 0 raw p0 0 []).processed, 0, [],
        Outcome.done⟩ := by
  have hlt : unmatchedCount raw p0 < raw.length + 1 := by
    have := List.length_filter_le (fun r => ! matched r p0) raw
    unfold unmatchedCount
    omega
  obtain ⟨h1, h2⟩ :=
    runLoop_terminates parse raw hids (raw.length + 1) p0 0 [] 0 hlt
  exact ⟨h1, h2, runLoop_empty_step parse okFetch fuel2 0 raw _ 0 [] rfl h2⟩

/-- Witness for C2: a one-row raw table, empty initial processed table. -/
theorem C2_rerun_idempotent_witness :
    (∀ r ∈ [[("id", Val.int 1)]], idv r ≠ Val.null) ∧
    ((runLoop (fun _ => none) okFetch ([[("id", Val.int 1)]].length + 1) 0
        [[("id", Val.int 1)]] [] 0 []).outcome = Outcome.done ∧
    selectQuery [[("id", Val.int 1)]]
      (runLoop (fun _ => none) okFetch ([[("id", Val.int 1)]].length + 1) 0
        [[("id", Val.int 1)]] [] 0 []).processed 100 = [] ∧
    runLoop (fun _ => none) okFetch (0 + 1) 0 [[("id", Val.int 1)]]
        (runLoop (fun _ => none) okFetch ([[("id", Val.int 1)]].length + 1) 0
          [[("id", Val.int 1)]] [] 0 []).processed 0 [] =
      ⟨(runLoop (fun _ => none) okFetch ([[("id", Val.int 1)]].length + 1) 0
          [[("id", Val.int 1)]] [] 0 []).processed, 0, [], Outcome.done⟩) :=
  ⟨by decide,
    C2_rerun_idempotent (fun _ => none) [[("id", Val.int 1)]] [] 0 (by decide)⟩

/-- C4: the Sanitizer `remove_tags` is total and never raises: null input
yields the empty string; a string input yields the parsed plain text when
the parse succeeds and the original string when the parse fails; a
non-text input (on which BeautifulSoup raises) is returned unchanged. -/
theorem C4_remove_tags_total (parse : String → Option String) :
    remove_tags parse Val.null = Val.str "" ∧
    (∀ s : String, remove_tags parse (Val.str s) = Val.str ((parse s).getD s)) ∧
    (∀ n : Int, remove_tags parse (Val.int n) = Val.int n) := by
  refine ⟨rfl, ?_, fun n => rfl⟩
  intro s
  unfold remove_tags
  cases hp : parse s <;> simp [hp]

/-- Witness for C4 at a concrete always-failing parser. -/
theorem C4_remove_tags_total_witness :
    remove_tags (fun _ => none) Val.null = Val.str "" ∧
    (∀ s : String,
      remove_tags (fun _ => none) (Val.str s) =
        Val.str (((fun (_ : String) => (none : Option String)) s).getD s)) ∧
    (∀ n : Int, remove_tags (fun _ => none) (Val.int n) = Val.int n) :=
  C4_remove_tags_total (fun _ => none)

/-- C5 counterexample: with one unprocessed raw row and a failing query,
the Selector returns the same empty batch as a selector run over an empty
difference, and the loop finishes in exactly the state of a true-completion
run: the failure is not signalled to the caller through any channel
distinguishable from completion, and the loop ends via the completion
branch, not a failure branch. -/
theorem C5_counterexample :
    download_table_to_df (Except.error (QueryError.err "connection refused"))
        [[("id", Val.int 1)]] [] 100 =
      download_table_to_df (Except.ok ()) [] [] 100 ∧
    runLoop (fun s => some s)
        (fun _ => Except.error (QueryError.err "connection refused")) 5 0
        [[("id", Val.int 1)]] [] 0 [] =
      runLoop (fun s => some s) okFetch 5 0 [] [] 0 [] := by
  decide

/-- C5 amended: on a query execution failure the Selector logs and returns
an empty batch, and the Batch Processor then exits the loop through the
no-new-data completion branch with nothing written — a Selector failure is
not distinguishable from completion and is not treated as fatal. -/
theorem C5_amended_selector_failure (e : QueryError) (raw processed : List Row)
    (limit : Nat) (parse : String → Option String)
    (fetch : Nat → Except QueryError Unit) (fuel iter c : Nat) (errs : List String)
    (hf : fetch iter = Except.error e) :
    download_table_to_df (Except.error e) raw processed limit = [] ∧
    runLoop parse fetch (fuel + 1) iter raw processed c errs =
      ⟨processed, c, errs, Outcome.done⟩ := by
  constructor
  · rfl
  · rw [runLoop_succ]
    simp [download_table_to_df, hf]

/-- C6: when the `content` column is absent from a fetched batch (so
`df[column].apply` raises for it) while the three abstract columns are
present, the sanitize phase transforms the three abstract columns, leaves
every row's `content` exactly as fetched, records `content` in
`error_columns`, the loop still appends the batch to the processed table,
and `content` is in the run-end `error_columns` summary. -/
theorem C6_partial_field_failure (parse : String → Option String)
    (fetch : Nat → Except QueryError Unit) (raw p : List Row) (fuel iter c : Nat)
    (errs : List String) (hf : fetch iter = Except.ok ())
    (habs : ∀ r ∈ selectQuery raw p 100,
      (assocGet r "abstract_de").isSome = true ∧
      (assocGet r "abstract_it").isSome = true ∧
      (assocGet r "abstract_fr").isSome = true)
    (hcontent : ∃ r ∈ selectQuery raw p 100, assocGet r "content" = none)
    (hne : selectQuery raw p 100 ≠ []) :
    sanitizeColumns parse (selectQuery raw p 100) =
      (applyColumnOk (remove_tags parse) "abstract_fr"
        (applyColumnOk (remove_tags parse) "abstract_it"
          (applyColumnOk (remove_tags parse) "abstract_de" (selectQuery raw p 100))),
       ["content"]) ∧
    (applyColumnOk (remove_tags parse) "abstract_fr"
      (applyColumnOk (remove_tags parse) "abstract_it"
        (applyColumnOk (remove_tags parse) "abstract_de"
          (selectQuery raw p 100)))).map (fun r => assocGet r "content") =
      (selectQuery raw p 100).map (fun r => assocGet r "content") ∧
    runLoop parse fetch (fuel + 1) iter raw p c errs =
      runLoop parse fetch fuel (iter + 1) raw
        (p ++ applyColumnOk (remove_tags parse) "abstract_fr"
          (applyColumnOk (remove_tags parse) "abstract_it"
            (applyColumnOk (remove_tags parse) "abstract_de" (selectQuery raw p 100))))
        (c + (selectQuery raw p 100).length) (errs ++ ["content"]) ∧
    "content" ∈ (runLoop parse fetch (fuel + 1) iter raw p c errs).error_columns := by
  set df := selectQuery raw p 100 with hdfq
  set g := remove_tags parse with hgdef
  set d1 := applyColumnOk g "abstract_de" df with hd1
  set d2 := applyColumnOk g "abstract_it" d1 with hd2
  set d3 := applyColumnOk g "abstract_fr" d2 with hd3
  have h1 : df.all (fun r => (assocGet r "abstract_de").isSome) = true := by
    rw [List.all_eq_true]
    intro r hr
    exact (habs r hr).1
  have h2 : d1.all (fun r => (assocGet r "abstract_it").isSome) = true := by
    rw [hd1, all_isSome_applyColumnOk, List.all_eq_true]
    intro r hr
    exact (habs r hr).2.1
  have h3 : d2.all (fun r => (assocGet r "abstract_fr").isSome) = true := by
    rw [hd2, hd1, all_isSome_applyColumnOk, all_isSome_applyColumnOk, List.all_eq_true]
    intro r hr
    exact (habs r hr).2.2
  have hcall : df.all (fun r => (assocGet r "content").isSome) = false := by
    obtain ⟨r, hr, hnone⟩ := hcontent
    have hnot : ¬ (df.all (fun r => (assocGet r "content").isSome) = true) := by
      rw [List.all_eq_true]
      intro hall
      have hsome := hall r hr
      rw [hnone] at hsome
      simp at hsome
    simp only [Bool.not_eq_true] at hnot
    exact hnot
  have h4 : d3.all (fun r => (assocGet r "content").isSome) = false := by
    rw [hd3, hd2, hd1, all_isSome_applyColumnOk, all_isSome_applyColumnOk,
      all_isSome_applyColumnOk]
    exact hcall
  have e1 : applyColumn g "abstract_de" df = Except.ok d1 := by
    simp [applyColumn, h1, hd1]
  have e2 : applyColumn g "abstract_it" d1 = Except.ok d2 := by
    simp [applyColumn, h2, hd2]
  have e3 : applyColumn g "abstract_fr" d2 = Except.ok d3 := by
    simp [applyColumn, h3, hd3]
  have e4 : applyColumn g "content" d3 = Except.error "content" := by
    simp [applyColumn, h4]
  have s1 : sanitizeStep parse (df, ([] : List String)) "abstract_de" = (d1, []) := by
    simp only [sanitizeStep, e1]
  have s2 : sanitizeStep parse (d1, ([] : List String)) "abstract_it" = (d2, []) := by
    simp only [sanitizeStep, e2]
  have s3 : sanitizeStep parse (d2, ([] : List String)) "abstract_fr" = (d3, []) := by
    simp only [sanitizeStep, e3]
  have s4 : sanitizeStep parse (d3, ([] : List String)) "content" = (d3, ["content"]) := by
    simp only [sanitizeStep, e4]
    rfl
  have hsan : sanitizeColumns parse df = (d3, ["content"]) := by
    unfold sanitizeColumns columns_to_clean
    simp only [List.foldl_cons, List.foldl_nil]
    rw [s1, s2, s3, s4]
  have hvals : d3.map (fun r => assocGet r "content") =
      df.map (fun r => assocGet r "content") := by
    rw [hd3, hd2, hd1,
      map_assocGet_applyColumnOk _ _ _ _ (by decide),
      map_assocGet_applyColumnOk _ _ _ _ (by decide),
      map_assocGet_applyColumnOk _ _ _ _ (by decide)]
  have hie : df.isEmpty = false := by
    cases hdfe : df with
    | nil => exact absurd hdfe hne
    | cons a l => rfl
  have hstep : runLoop parse fetch (fuel + 1) iter raw p c errs =
      runLoop parse fetch fuel (iter + 1) raw (p ++ d3) (c + df.length)
        (errs ++ ["content"]) := by
    rw [runLoop_succ]
    have hdl : download_table_to_df (fetch iter) raw p 100 = df := by
      rw [hf]
      rfl
    simp only [hdl, hie, Bool.false_eq_true, if_false, hsan]
  have hmem : "content" ∈ (runLoop parse fetch (fuel + 1) iter raw p c errs).error_columns := by
    rw [hstep]
    obtain ⟨t, ht⟩ := runLoop_errs_extend parse fetch raw fuel (iter + 1) (p ++ d3)
      (c + df.length) (errs ++ ["content"])
    rw [ht]
    simp
  exact ⟨hsan, hvals, hstep, hmem⟩

/-- Witness for C6: a one-row batch with the three abstract columns present
and no `content` column. -/
theorem C6_partial_field_failure_witness :
    (okFetch 0 = Except.ok () ∧
     (∀ r ∈ selectQuery [[("id", Val.int 3), ("abstract_de", Val.str "x"),
          ("abstract_it", Val.null), ("abstract_fr", Val.str "")]] [] 100,
       (assocGet r "abstract_de").isSome = true ∧
       (assocGet r "abstract_it").isSome = true ∧
       (assocGet r "abstract_fr").isSome = true) ∧
     (∃ r ∈ selectQuery [[("id", Val.int 3), ("abstract_de", Val.str "x"),
          ("abstract_it", Val.null), ("abstract_fr", Val.str "")]] [] 100,
       assocGet r "content" = none) ∧
     selectQuery [[("id", Val.int 3), ("abstract_de", Val.str "x"),
        ("abstract_it", Val.null), ("abstract_fr", Val.str "")]] [] 100 ≠ []) ∧
    (sanitizeColumns (fun _ => none)
        (selectQuery [[("id", Val.int 3), ("abstract_de", Val.str "x"),
          ("abstract_it", Val.null), ("abstract_fr", Val.str "")]] [] 100) =
      (applyColumnOk (remove_tags (fun _ => none)) "abstract_fr"
        (applyColumnOk (remove_tags (fun _ => none)) "abstract_it"
          (applyColumnOk (remove_tags (fun _ => none)) "abstract_de"
            (selectQuery [[("id", Val.int 3), ("abstract_de", Val.str "x"),
              ("abstract_it", Val.null), ("abstract_fr", Val.str "")]] [] 100))),
       ["content"]) ∧
    (applyColumnOk (remove_tags (fun _ => none)) "abstract_fr"
      (applyColumnOk (remove_tags (fun _ => none)) "abstract_it"
        (applyColumnOk (remove_tags (fun _ => none)) "abstract_de"
          (selectQuery [[("id", Val.int 3), ("abstract_de", Val.str "x"),
            ("abstract_it", Val.null), ("abstract_fr", Val.str "")]] []
            100)))).map (fun r => assocGet r "content") =
      (selectQuery [[("id", Val.int 3), ("abstract_de", Val.str "x"),
        ("abstract_it", Val.null), ("abstract_fr", Val.str "")]] [] 100).map
        (fun r => assocGet r "content") ∧
    runLoop (fun _ => none) okFetch (1 + 1) 0
        [[("id", Val.int 3), ("abstract_de", Val.str "x"),
          ("abstract_it", Val.null), ("abstract_fr", Val.str "")]] [] 0 [] =
      runLoop (fun _ => none) okFetch 1 (0 + 1)
        [[("id", Val.int 3), ("abstract_de", Val.str "x"),
          ("abstract_it", Val.null), ("abstract_fr", Val.str "")]]
        ([] ++ applyColumnOk (remove_tags (fun _ => none)) "abstract_fr"
          (applyColumnOk (remove_tags (fun _ => none)) "abstract_it"
            (applyColumnOk (remove_tags (fun _ => none)) "abstract_de"
              (selectQuery [[("id", Val.int 3), ("abstract_de", Val.str "x"),
                ("abstract_it", Val.null), ("abstract_fr", Val.str "")]] [] 100))))
        (0 + (selectQuery [[("id", Val.int 3), ("abstract_de", Val.str "x"),
          ("abstract_it", Val.null), ("abstract_fr", Val.str "")]] [] 100).length)
        ([] ++ ["content"]) ∧
    "content" ∈ (runLoop (fun _ => none) okFetch (1 + 1) 0
        [[("id", Val.int 3), ("abstract_de", Val.str "x"),
          ("abstract_it", Val.null), ("abstract_fr", Val.str "")]] [] 0
        []).error_columns) :=
  ⟨⟨rfl, by decide, by decide, by decide⟩,
    C6_partial_field_failure (fun _ => none) okFetch
      [[("id", Val.int 3), ("abstract_de", Val.str "x"),
        ("abstract_it", Val.null), ("abstract_fr", Val.str "")]] [] 1 0 0 [] rfl
      (by decide) (by decide) (by decide)⟩

/-- Witness for the amended C5 at a concrete failing engine. -/
theorem C5_amended_selector_failure_witness :
    (fun (_ : Nat) => Except.error (QueryError.err "boom")) 0 =
      (Except.error (QueryError.err "boom") : Except QueryError Unit) ∧
    (download_table_to_df (Except.error (QueryError.err "boom"))
        [[("id", Val.int 1)]] [] 100 = [] ∧
    runLoop (fun _ => none)
        (fun (_ : Nat) => Except.error (QueryError.err "boom")) (4 + 1) 0
        [[("id", Val.int 1)]] [] 0 [] =
      ⟨[], 0, [], Outcome.done⟩) :=
  ⟨rfl,
    C5_amended_selector_failure (QueryError.err "boom") [[("id", Val.int 1)]] [] 100
      (fun _ => none) (fun _ => Except.error (QueryError.err "boom")) 4 0 0 [] rfl⟩

/-- C8: `bulk_insert_data` is idempotent under the table's uniqueness
constraint: for a registered table whose constraint columns receive
non-null values and a table state with no conflicting row, inserting a row
appends its completed form once; re-inserting the same row succeeds with no
error and leaves the table unchanged, and the completed row occurs exactly
once. -/
theorem C8_bulk_upsert_idempotent (tables : List (String × List ColumnSpec))
    (cspecs : List ColumnSpec) (tbl0 : List Row) (tname : String) (r : Row)
    (hreg : assocGet tables tname = some cspecs)
    (hpk : pkNames cspecs ≠ [])
    (hval : ∀ c ∈ pkNames cspecs,
      valAt (complete_item (colNames cspecs) r) c ≠ Val.null)
    (hfresh : tbl0.any (fun q =>
      rowConflicts (pkNames cspecs) q (complete_item (colNames cspecs) r)) = false) :
    bulk_insert_data tables tbl0 tname [r] =
      (tbl0 ++ [complete_item (colNames cspecs) r], none) ∧
    bulk_insert_data tables (tbl0 ++ [complete_item (colNames cspecs) r]) tname [r] =
      (tbl0 ++ [complete_item (colNames cspecs) r], none) ∧
    countEq (tbl0 ++ [complete_item (colNames cspecs) r])
      (complete_item (colNames cspecs) r) = 1 := by
  set r2 := complete_item (colNames cspecs) r with hr2
  have hconf : rowConflicts (pkNames cspecs) r2 r2 = true := rowConflicts_self _ _ hval
  have hpkne : ((pkNames cspecs).isEmpty) = false := by
    cases hp : pkNames cspecs with
    | nil => exact absurd hp hpk
    | cons a l => rfl
  refine ⟨?_, ?_, ?_⟩
  · unfold bulk_insert_data
    rw [hreg]
    simp only [List.foldl_cons, List.foldl_nil]
    rw [← hr2]
    unfold insert_on_conflict
    rw [hfresh, Bool.and_false]
    rfl
  · unfold bulk_insert_data
    rw [hreg]
    have hany : ((tbl0 ++ [r2]).any (fun q => rowConflicts (pkNames cspecs) q r2)) = true := by
      rw [List.any_append]
      simp [hconf]
    simp only [List.foldl_cons, List.foldl_nil]
    rw [← hr2]
    unfold insert_on_conflict
    rw [hany, hpkne]
    rfl
  · have hnm : r2 ∉ tbl0 := by
      intro hmem
      have hco : tbl0.any (fun q => rowConflicts (pkNames cspecs) q r2) = true := by
        rw [List.any_eq_true]
        exact ⟨r2, hmem, hconf⟩
      rw [hfresh] at hco
      cases hco
    rw [countEq_append, countEq_zero_of_not_mem hnm]
    simp [countEq]

/-- Witness for C8: a single-primary-key table, an empty initial table, and
an input row with an extra undeclared key. -/
theorem C8_bulk_upsert_idempotent_witness :
    (assocGet [("t", [ColumnSpec.mk "id" "Integer" true none false])] "t" =
      some [ColumnSpec.mk "id" "Integer" true none false] ∧
     pkNames [ColumnSpec.mk "id" "Integer" true none false] ≠ [] ∧
     (∀ c ∈ pkNames [ColumnSpec.mk "id" "Integer" true none false],
       valAt (complete_item (colNames [ColumnSpec.mk "id" "Integer" true none false])
         [("id", Val.int 1), ("junk", Val.str "z")]) c ≠ Val.null) ∧
     ([] : List Row).any (fun q =>
       rowConflicts (pkNames [ColumnSpec.mk "id" "Integer" true none false]) q
         (complete_item (colNames [ColumnSpec.mk "id" "Integer" true none false])
           [("id", Val.int 1), ("junk", Val.str "z")])) = false) ∧
    (bulk_insert_data [("t", [ColumnSpec.mk "id" "Integer" true none false])] [] "t"
        [[("id", Val.int 1), ("junk", Val.str "z")]] =
      ([] ++ [complete_item (colNames [ColumnSpec.mk "id" "Integer" true none false])
        [("id", Val.int 1), ("junk", Val.str "z")]], none) ∧
    bulk_insert_data [("t", [ColumnSpec.mk "id" "Integer" true none false])]
        ([] ++ [complete_item (colNames [ColumnSpec.mk "id" "Integer" true none false])
          [("id", Val.int 1), ("junk", Val.str "z")]]) "t"
        [[("id", Val.int 1), ("junk", Val.str "z")]] =
      ([] ++ [complete_item (colNames [ColumnSpec.mk "id" "Integer" true none false])
        [("id", Val.int 1), ("junk", Val.str "z")]], none) ∧
    countEq ([] ++ [complete_item (colNames [ColumnSpec.mk "id" "Integer" true none false])
        [("id", Val.int 1), ("junk", Val.str "z")]])
      (complete_item (colNames [ColumnSpec.mk "id" "Integer" true none false])
        [("id", Val.int 1), ("junk", Val.str "z")]) = 1) :=
  ⟨⟨by decide, by decide, by decide, by decide⟩,
    C8_bulk_upsert_idempotent [("t", [ColumnSpec.mk "id" "Integer" true none false])]
      [ColumnSpec.mk "id" "Integer" true none false] [] "t"
      [("id", Val.int 1), ("junk", Val.str "z")] (by decide) (by decide) (by decide)
      (by decide)⟩

/-- C9: calling `bulk_insert_data` with a table name never registered by
`create_or_update_table` raises the not-initialized error before any
database access, and the target table's contents are unchanged. -/
theorem C9_not_initialized (tables : List (String × List ColumnSpec)) (tbl : List Row)
    (tname : String) (data : List Row) (h : assocGet tables tname = none) :
    bulk_insert_data tables tbl tname data =
      (tbl, some "ValueError: table not initialized, call create_or_update_table first") := by
  unfold bulk_insert_data
  rw [h]

/-- Witness for C9: an empty registration dictionary. -/
theorem C9_not_initialized_witness :
    (assocGet ([] : List (String × List ColumnSpec)) "t" = none) ∧
    bulk_insert_data [] [[("id", Val.int 1)]] "t" [[("x", Val.null)]] =
      ([[("id", Val.int 1)]],
       some "ValueError: table not initialized, call create_or_update_table first") :=
  ⟨rfl, C9_not_initialized [] [[("id", Val.int 1)]] "t" [[("x", Val.null)]] rfl⟩

/-- C10: the mapping inserted for a row contains exactly the table's
declared columns, in order; keys of the input row outside the declared
columns are absent from the mapping; declared columns read the row's value,
NULL when absent; and a `bulk_insert_data` call on a registered table
reports no error regardless of extra keys. -/
theorem C10_extra_keys_dropped (cols : List String) (item : Row)
    (tables : List (String × List ColumnSpec)) (cspecs : List ColumnSpec)
    (tbl : List Row) (tname : String) (data : List Row)
    (hreg : assocGet tables tname = some cspecs) :
    (complete_item cols item).map Prod.fst = cols ∧
    (∀ k : String, k ∉ cols → assocGet (complete_item cols item) k = none) ∧
    (∀ k : String, k ∈ cols →
      assocGet (complete_item cols item) k = some ((assocGet item k).getD Val.null)) ∧
    (bulk_insert_data tables tbl tname data).2 = none := by
  refine ⟨map_fst_complete_item cols item, ?_, ?_, ?_⟩
  · intro k hk
    rw [assocGet_complete_item]
    simp [hk]
  · intro k hk
    rw [assocGet_complete_item]
    simp [hk]
  · unfold bulk_insert_data
    rw [hreg]

/-- Witness for C10: a one-column table and a row holding only an
undeclared key. -/
theorem C10_extra_keys_dropped_witness :
    (assocGet [("t", [ColumnSpec.mk "a" "Text" false none false])] "t" =
      some [ColumnSpec.mk "a" "Text" false none false]) ∧
    ((complete_item ["a"] [("junk", Val.int 7)]).map Prod.fst = ["a"] ∧
    (∀ k : String, k ∉ ["a"] →
      assocGet (complete_item ["a"] [("junk", Val.int 7)]) k = none) ∧
    (∀ k : String, k ∈ ["a"] →
      assocGet (complete_item ["a"] [("junk", Val.int 7)]) k =
        some ((assocGet [("junk", Val.int 7)] k).getD Val.null)) ∧
    (bulk_insert_data [("t", [ColumnSpec.mk "a" "Text" false none false])] [] "t"
      [[("junk", Val.int 7)]]).2 = none) :=
  ⟨by decide,
    C10_extra_keys_dropped ["a"] [("junk", Val.int 7)]
      [("t", [ColumnSpec.mk "a" "Text" false none false])]
      [ColumnSpec.mk "a" "Text" false none false] [] "t" [[("junk", Val.int 7)]]
      (by decide)⟩

/-- C3 (code evidence): reconciling a live table holding columns a, b
against a spec declaring a, b, c registers the spec and then raises an
uncaught NameError — `table_update.py` uses `inspect` (line 98) without
importing it — before any missing-column ALTER can run: the live table
keeps exactly columns a, b, never reaching the claimed final state
a, b, c. -/
theorem C3_reconcile_raises_nameerror :
    create_or_update_table
      [⟨"t", [⟨"a", "Text", false, none, false⟩, ⟨"b", "Text", false, none, false⟩,
        ⟨"c", "Text", false, none, false⟩]⟩]
      ⟨[], [("t", [⟨"a", "Text", false, none, false⟩,
        ⟨"b", "Text", false, none, false⟩])]⟩ =
      (⟨[("t", [⟨"a", "Text", false, none, false⟩, ⟨"b", "Text", false, none, false⟩,
          ⟨"c", "Text", false, none, false⟩])],
        [("t", [⟨"a", "Text", false, none, false⟩,
          ⟨"b", "Text", false, none, false⟩])]⟩,
       some "NameError: name inspect is not defined") := by decide

/-- C7 (code evidence): reconciling a two-table catalog against an empty
database registers and creates only the first table and then raises an
uncaught NameError at the unimported `inspect` (and the create-step
`except` arm would itself raise on the unimported `exc`): no per-column
transaction ever runs and the loop never reaches the second table, so
failures are not isolated per table or per column. -/
theorem C7_reconcile_not_per_table :
    create_or_update_table
      [⟨"t1", [⟨"a", "Text", false, none, false⟩]⟩,
       ⟨"t2", [⟨"b", "Text", false, none, false⟩]⟩]
      ⟨[], []⟩ =
      (⟨[("t1", [⟨"a", "Text", false, none, false⟩])],
        [("t1", [⟨"a", "Text", false, none, false⟩])]⟩,
       some "NameError: name inspect is not defined") := by decide
